import Mathlib

/-!
Verification of the MapAlert proximity-alert engine.

The repository is a single-screen React Native app. Two variants of the
screen exist in the source: the legacy `Home.js` and the updated screen
(the file with `hasAlerted` hysteresis, `handleMapPress`, `handleSearch`,
`clearDestination`). The definitions below embed, from the source:
  * `calculateDistance` — identical in both variants, over exact reals;
  * the distance/alert `useEffect` of the updated screen, as a step
    function on the screen state given a computed distance sample
    (distance samples are rationals, since only comparisons against the
    2 km / 2.5 km thresholds matter for the alert logic);
  * `handleMapPress`, `handleSearch`, `clearDestination` of the updated
    screen;
  * the pattern of `calculateDistance` invocations made by the legacy
    `Home.js` distance/alert `useEffect`.
-/

/-- A latitude/longitude pair in degrees, as produced by the geolocation and
geocoding providers and by map taps. -/
structure Coordinate where
  latitude : ℝ
  longitude : ℝ

/-- `calculateDistance` from the source (the function body is identical in
`Home.js` and in the updated screen): haversine-style spherical distance with
degree-to-radian factor `p` and Earth diameter `12742` km. -/
noncomputable def calculateDistance (c1 c2 : Coordinate) : ℝ :=
  let lat1 := c1.latitude
  let lon1 := c1.longitude
  let lat2 := c2.latitude
  let lon2 := c2.longitude
  let p : ℝ := 0.017453292519943295
  let a : ℝ :=
    0.5 - Real.cos ((lat2 - lat1) * p) / 2 +
      Real.cos (lat1 * p) * Real.cos (lat2 * p) * (1 - Real.cos ((lon2 - lon1) * p)) / 2
  12742 * Real.arcsin (Real.sqrt a)

/-- Reference haversine great-circle distance on a sphere of radius 6371 km,
written in the textbook form `2 R asin (sqrt (hav Δlat + cos lat1 cos lat2
hav Δlon))` with `hav θ = sin (θ / 2) ^ 2`, using the same degree-to-radian
factor the source uses. -/
noncomputable def haversineReference (c1 c2 : Coordinate) : ℝ :=
  let p : ℝ := 0.017453292519943295
  let hav : ℝ → ℝ := fun θ => Real.sin (θ / 2) ^ 2
  2 * 6371 * Real.arcsin (Real.sqrt
    (hav ((c2.latitude - c1.latitude) * p) +
      Real.cos (c1.latitude * p) * Real.cos (c2.latitude * p) *
        hav ((c2.longitude - c1.longitude) * p)))

/-- The haversine-style argument of `Real.arcsin ∘ Real.sqrt` in
`calculateDistance`, shared by the proofs below. -/
noncomputable def havArg (c1 c2 : Coordinate) : ℝ :=
  0.5 - Real.cos ((c2.latitude - c1.latitude) * 0.017453292519943295) / 2 +
    Real.cos (c1.latitude * 0.017453292519943295) *
      Real.cos (c2.latitude * 0.017453292519943295) *
      (1 - Real.cos ((c2.longitude - c1.longitude) * 0.017453292519943295)) / 2

lemma calculateDistance_eq_havArg (c1 c2 : Coordinate) :
    calculateDistance c1 c2 = 12742 * Real.arcsin (Real.sqrt (havArg c1 c2)) := rfl

/-- C3: at equal endpoints the haversine intermediate is exactly `0` in exact
arithmetic, so `calculateDistance c c = 0` (and no square root of a negative
number can arise, hence no NaN at equal inputs even without a clamp). -/
theorem calculateDistance_self (c : Coordinate) : calculateDistance c c = 0 := by
  rw [calculateDistance_eq_havArg]
  have h : havArg c c = 0 := by
    unfold havArg
    rw [show (c.latitude - c.latitude) * (0.017453292519943295 : ℝ) = 0 by ring,
      show (c.longitude - c.longitude) * (0.017453292519943295 : ℝ) = 0 by ring,
      Real.cos_zero]
    ring
  rw [h, Real.sqrt_zero, Real.arcsin_zero, mul_zero]

/-- C9: `calculateDistance` is symmetric in its two arguments, because cosine
is even and the two cosine factors commute. -/
theorem calculateDistance_symm (c1 c2 : Coordinate) :
    calculateDistance c1 c2 = calculateDistance c2 c1 := by
  rw [calculateDistance_eq_havArg, calculateDistance_eq_havArg]
  have h : havArg c1 c2 = havArg c2 c1 := by
    unfold havArg
    rw [show (c2.latitude - c1.latitude) * (0.017453292519943295 : ℝ) =
        -((c1.latitude - c2.latitude) * 0.017453292519943295) by ring,
      show (c2.longitude - c1.longitude) * (0.017453292519943295 : ℝ) =
        -((c1.longitude - c2.longitude) * 0.017453292519943295) by ring,
      Real.cos_neg, Real.cos_neg]
    ring
  rw [h]

lemma sin_half_sq (θ : ℝ) : Real.sin (θ / 2) ^ 2 = (1 - Real.cos θ) / 2 := by
  rw [Real.sin_sq_eq_half_sub, show 2 * (θ / 2) = θ by ring]
  ring

/-- C2: the source formula coincides exactly (in exact real arithmetic) with
the reference haversine distance on a sphere of diameter 12742 km — hence far
within the claimed 1e-9 relative error — and the distance from (0,0) to
(0,1) is within 0.5 km of 111.19 km. -/
theorem calculateDistance_is_haversine :
    (∀ c1 c2 : Coordinate, calculateDistance c1 c2 = haversineReference c1 c2) ∧
      |calculateDistance ⟨0, 0⟩ ⟨0, 1⟩ - 111.19| < 0.5 := by
  constructor
  · intro c1 c2
    rw [calculateDistance_eq_havArg]
    simp only [haversineReference]
    have h : havArg c1 c2 =
        Real.sin ((c2.latitude - c1.latitude) * 0.017453292519943295 / 2) ^ 2 +
          Real.cos (c1.latitude * 0.017453292519943295) *
            Real.cos (c2.latitude * 0.017453292519943295) *
            Real.sin ((c2.longitude - c1.longitude) * 0.017453292519943295 / 2) ^ 2 := by
      unfold havArg
      rw [sin_half_sq, sin_half_sq]
      ring
    rw [h]
    norm_num
  · have harg : havArg ⟨0, 0⟩ ⟨0, 1⟩ = (1 - Real.cos 0.017453292519943295) / 2 := by
      unfold havArg
      norm_num [Real.cos_zero]
    rw [calculateDistance_eq_havArg, harg,
      ← Real.sin_half_eq_sqrt (by norm_num) (by linarith [Real.pi_gt_three]),
      Real.arcsin_sin (by linarith [Real.pi_gt_three]) (by linarith [Real.pi_gt_three])]
    rw [abs_lt]
    constructor <;> norm_num

/-- A side effect requested by the screen: the vibration pattern, the
proximity-alert dialog of `triggerProximityAlert` (carrying the distance it
reports), or one of the `Alert.alert(title, message)` dialogs of
`handleSearch`. -/
inductive Effect where
  | vibrate (pattern : List Nat)
  | proximityAlert (dist : ℚ)
  | errorAlert (title message : String)
deriving DecidableEq

/-- `triggerProximityAlert` of the updated screen: the vibration pattern
`[500, 200, 500, 200, 500]` followed by the "Destination Nearby" dialog. -/
def triggerProximityAlert (dist : ℚ) : List Effect :=
  [Effect.vibrate [500, 200, 500, 200, 500], Effect.proximityAlert dist]

/-- The `useState` hooks of the updated screen that the engine logic reads and
writes (loading and animation state is presentation-only and omitted). -/
structure AppState where
  location : Option Coordinate
  destination : Option Coordinate
  searchText : String
  distance : Option ℚ
  isTracking : Bool
  hasAlerted : Bool

/-- Body of the distance/alert `useEffect` of the updated screen, given the
distance sample computed for the current location and destination:
`setDistance(dist)` always; fire `triggerProximityAlert` and set
`hasAlerted` when `dist ≤ 2` and the flag is clear; clear the flag when
`dist > 2.5`; otherwise leave the flag alone. -/
def distanceEffect (st : AppState) (dist : ℚ) : AppState × List Effect :=
  if dist ≤ 2 ∧ st.hasAlerted = false then
    ({ st with distance := some dist, hasAlerted := true }, triggerProximityAlert dist)
  else if dist > 2.5 then
    ({ st with distance := some dist, hasAlerted := false }, [])
  else
    ({ st with distance := some dist }, [])

/-- Feed a list of distance samples through `distanceEffect` in order,
collecting every emitted side effect. -/
def runSamples : AppState → List ℚ → AppState × List Effect
  | st, [] => (st, [])
  | st, d :: ds =>
    let step := distanceEffect st d
    let rest := runSamples step.1 ds
    (rest.1, step.2 ++ rest.2)

/-- Number of proximity-alert dialogs in a list of side effects. -/
def countProximityAlerts (effects : List Effect) : Nat :=
  effects.countP fun e =>
    match e with
    | Effect.proximityAlert _ => true
    | _ => false

/-- `handleMapPress` of the updated screen: a map tap replaces the destination
with the tapped coordinate and clears the alert flag (the map animation is
presentation-only and omitted). -/
def handleMapPress (st : AppState) (coords : Coordinate) : AppState :=
  { st with destination := some coords, hasAlerted := false }

/-- Result of `handleSearch`: the resulting screen state, the dialogs shown,
and whether the geocoding provider (`Location.geocodeAsync`) was invoked. -/
structure SearchResult where
  state : AppState
  effects : List Effect
  providerInvoked : Bool

/-- The guard `!searchText.trim()` of `handleSearch`: the query is empty or
whitespace-only, i.e. the whitespace-trimmed string is empty — which holds
exactly when every character of the query is whitespace. -/
def blankQuery (s : String) : Bool :=
  s.data.all Char.isWhitespace

/-- `handleSearch` of the updated screen. The geocoding provider's response is
a parameter: `Except.error` models a transport failure thrown by
`Location.geocodeAsync` (the `catch` branch), `Except.ok` its result list. -/
def handleSearch (st : AppState) (provider : Except Unit (List Coordinate)) :
    SearchResult :=
  if blankQuery st.searchText then
    ⟨st, [Effect.errorAlert "Error" "Please enter a location to search"], false⟩
  else
    match provider with
    | Except.error _ =>
        ⟨st, [Effect.errorAlert "Error" "Failed to search location. Please try again."],
          true⟩
    | Except.ok [] =>
        ⟨st, [Effect.errorAlert "Not Found" "Location not found. Please try again."],
          true⟩
    | Except.ok (c :: _) =>
        ⟨{ st with destination := some ⟨c.latitude, c.longitude⟩, hasAlerted := false },
          [], true⟩

/-- `clearDestination` of the updated screen: five setters, no side effect. -/
def clearDestination (st : AppState) : AppState × List Effect :=
  ({ st with
      destination := none
      distance := none
      isTracking := false
      hasAlerted := false
      searchText := "" }, [])

/-- The `calculateDistance` invocations made by the distance/alert `useEffect`
of the legacy `Home.js` for a given state of its three coordinate hooks: when
`location` and `mcoords` are both set, it computes
`calculateDistance(location, mcoords)` and also
`calculateDistance(location, scoords)` — the latter whether or not the
searched coordinate `scoords` is set. -/
def homeDistanceCalls (location mcoords scoords : Option Coordinate) :
    List (Option Coordinate × Option Coordinate) :=
  match location, mcoords with
  | some _, some _ => [(location, mcoords), (location, scoords)]
  | _, _ => []

lemma distanceEffect_fired (st : AppState) (d : ℚ) (hst : st.hasAlerted = true)
    (hd : d ≤ 2.5) :
    (distanceEffect st d).1.hasAlerted = true ∧ (distanceEffect st d).2 = [] := by
  have h1 : ¬(d ≤ 2 ∧ st.hasAlerted = false) := by
    rintro ⟨-, h⟩
    rw [hst] at h
    exact absurd h (by simp)
  have h2 : ¬(d > 2.5) := not_lt.mpr hd
  unfold distanceEffect
  rw [if_neg h1, if_neg h2]
  exact ⟨hst, rfl⟩

lemma runSamples_fired (st : AppState) (l : List ℚ) (hst : st.hasAlerted = true)
    (hl : ∀ d ∈ l, d ≤ 2.5) :
    (runSamples st l).1.hasAlerted = true ∧ (runSamples st l).2 = [] := by
  induction l generalizing st with
  | nil => exact ⟨hst, rfl⟩
  | cons d ds ih =>
    have hstep := distanceEffect_fired st d hst (hl d (List.mem_cons_self d ds))
    have hrest := ih (distanceEffect st d).1 hstep.1
      (fun x hx => hl x (List.mem_cons_of_mem d hx))
    simp only [runSamples]
    exact ⟨hrest.1, by rw [hstep.2, hrest.2]; rfl⟩

lemma runSamples_count_le_one (st : AppState) (l : List ℚ)
    (hl : ∀ d ∈ l, d ≤ 2.5) :
    countProximityAlerts (runSamples st l).2 ≤ 1 := by
  induction l generalizing st with
  | nil => simp [runSamples, countProximityAlerts]
  | cons d ds ih =>
    have hd25 : d ≤ 2.5 := hl d (List.mem_cons_self d ds)
    have hds : ∀ x ∈ ds, x ≤ 2.5 := fun x hx => hl x (List.mem_cons_of_mem d hx)
    cases hst : st.hasAlerted with
    | true =>
      have hall := runSamples_fired st (d :: ds) hst hl
      rw [hall.2]
      simp [countProximityAlerts]
    | false =>
      by_cases hd : d ≤ 2
      · have hfirst : distanceEffect st d =
            ({ st with distance := some d, hasAlerted := true },
              triggerProximityAlert d) := by
          unfold distanceEffect
          rw [if_pos ⟨hd, hst⟩]
        have hrest := runSamples_fired { st with distance := some d, hasAlerted := true }
          ds rfl hds
        simp only [runSamples, hfirst]
        rw [hrest.2]
        simp [countProximityAlerts, triggerProximityAlert]
      · have hfirst : distanceEffect st d = ({ st with distance := some d }, []) := by
          unfold distanceEffect
          rw [if_neg (by rintro ⟨h2, -⟩; exact hd h2), if_neg (not_lt.mpr hd25)]
        simp only [runSamples, hfirst]
        rw [List.nil_append]
        exact ih { st with distance := some d } hds

/-- C1: within one approach — a run of distance samples that all stay within
the 2.5 km clear radius — the updated screen's distance/alert effect emits at
most one proximity alert; and when the alert has already fired, it emits none
however many samples arrive. -/
theorem alert_at_most_once_per_approach (st : AppState) (samples : List ℚ)
    (h : ∀ d ∈ samples, d ≤ 2.5) :
    countProximityAlerts (runSamples st samples).2 ≤ 1 ∧
      (st.hasAlerted = true → countProximityAlerts (runSamples st samples).2 = 0) := by
  refine ⟨runSamples_count_le_one st samples h, fun hst => ?_⟩
  rw [(runSamples_fired st samples hst h).2]
  rfl

/-- C1 witness: with the alert already fired, two further samples at 1.8 km
(inside the 2.5 km clear radius) emit no further proximity alert. -/
theorem alert_at_most_once_per_approach_witness :
    (∀ d ∈ ([1.8, 1.8] : List ℚ), d ≤ 2.5) ∧
      countProximityAlerts
        (runSamples ⟨none, none, "", some 1.8, true, true⟩ [1.8, 1.8]).2 = 0 :=
  ⟨by norm_num,
    (alert_at_most_once_per_approach ⟨none, none, "", some 1.8, true, true⟩
      [1.8, 1.8] (by norm_num)).2 rfl⟩

/-- C4: from a fired state, a sample beyond the 2.5 km clear radius rearms the
alert flag without emitting anything, and a following sample within the 2 km
alert radius fires the proximity alert again. -/
theorem rearm_and_realert (st : AppState) (d1 d2 : ℚ)
    (_hfired : st.hasAlerted = true) (h1 : d1 > 2.5) (h2 : d2 ≤ 2) :
    (distanceEffect st d1).1.hasAlerted = false ∧
      (distanceEffect st d1).2 = [] ∧
      (distanceEffect (distanceEffect st d1).1 d2).2 = triggerProximityAlert d2 := by
  have hn1 : ¬(d1 ≤ 2 ∧ st.hasAlerted = false) := by
    rintro ⟨hle, -⟩
    linarith
  have hfirst : distanceEffect st d1 =
      ({ st with distance := some d1, hasAlerted := false }, []) := by
    unfold distanceEffect
    rw [if_neg hn1, if_pos h1]
  refine ⟨by rw [hfirst], by rw [hfirst], ?_⟩
  rw [hfirst]
  unfold distanceEffect
  rw [if_pos ⟨h2, rfl⟩]

/-- C4 witness: fired at 3 km the flag rearms silently, then a sample at 1 km
fires the proximity alert a second time. -/
theorem rearm_and_realert_witness :
    ((3 : ℚ) > 2.5 ∧ (1 : ℚ) ≤ 2) ∧
      ((distanceEffect ⟨none, none, "", some 3, false, true⟩ 3).1.hasAlerted = false ∧
        (distanceEffect ⟨none, none, "", some 3, false, true⟩ 3).2 = [] ∧
        (distanceEffect (distanceEffect ⟨none, none, "", some 3, false, true⟩ 3).1 1).2 =
          triggerProximityAlert 1) :=
  ⟨⟨by norm_num, by norm_num⟩,
    rearm_and_realert ⟨none, none, "", some 3, false, true⟩ 3 1 rfl
      (by norm_num) (by norm_num)⟩

/-- C5: the updated screen holds a single optional destination; a map tap or a
successful search replaces it with the new coordinate and clears the alert
flag, whatever the previous state was (in particular even if the alert had
already fired for the old destination). -/
theorem new_destination_resets_alert (st : AppState) (c : Coordinate)
    (rest : List Coordinate) (hq : blankQuery st.searchText = false) :
    (handleMapPress st c).destination = some c ∧
      (handleMapPress st c).hasAlerted = false ∧
      (handleSearch st (Except.ok (c :: rest))).state.destination =
        some ⟨c.latitude, c.longitude⟩ ∧
      (handleSearch st (Except.ok (c :: rest))).state.hasAlerted = false := by
  refine ⟨rfl, rfl, ?_, ?_⟩ <;>
    · unfold handleSearch
      rw [hq]
      rfl

/-- C5 witness: a map tap and a successful search while the alert has fired
replace the destination and clear the flag. -/
theorem new_destination_resets_alert_witness :
    (blankQuery (⟨none, some ⟨9, 76⟩, "Kochi", some 1, true, true⟩ : AppState).searchText =
        false) ∧
      ((handleMapPress ⟨none, some ⟨9, 76⟩, "Kochi", some 1, true, true⟩
          ⟨10, 76⟩).destination = some ⟨10, 76⟩ ∧
        (handleMapPress ⟨none, some ⟨9, 76⟩, "Kochi", some 1, true, true⟩
          ⟨10, 76⟩).hasAlerted = false ∧
        (handleSearch ⟨none, some ⟨9, 76⟩, "Kochi", some 1, true, true⟩
            (Except.ok [⟨10, 76⟩])).state.destination = some ⟨10, 76⟩ ∧
        (handleSearch ⟨none, some ⟨9, 76⟩, "Kochi", some 1, true, true⟩
            (Except.ok [⟨10, 76⟩])).state.hasAlerted = false) :=
  ⟨by decide, new_destination_resets_alert _ ⟨10, 76⟩ [] (by decide)⟩

/-- C7: a query whose text trims to the empty string fails validation
synchronously: one "Error" dialog, no provider invocation, and the state — in
particular the destination — unchanged. -/
theorem empty_query_fails_fast (st : AppState)
    (provider : Except Unit (List Coordinate)) (h : blankQuery st.searchText = true) :
    handleSearch st provider =
      ⟨st, [Effect.errorAlert "Error" "Please enter a location to search"], false⟩ := by
  unfold handleSearch
  rw [h]
  rfl

/-- C7 witness: a whitespace-only query is rejected without consulting the
provider and leaves the state untouched. -/
theorem empty_query_fails_fast_witness :
    (blankQuery (⟨none, none, "   ", none, false, false⟩ : AppState).searchText = true) ∧
      handleSearch ⟨none, none, "   ", none, false, false⟩ (Except.ok [⟨10, 76⟩]) =
        ⟨⟨none, none, "   ", none, false, false⟩,
          [Effect.errorAlert "Error" "Please enter a location to search"], false⟩ :=
  ⟨by decide, empty_query_fails_fast _ _ (by decide)⟩

/-- C8: with a nonempty query, a zero-result provider response yields the
"Not Found" dialog and a transport failure the search-failure dialog — two
distinct reports — and in both cases the screen state, hence the active
destination, is unchanged. -/
theorem not_found_distinct_from_transport_failure (st : AppState)
    (h : blankQuery st.searchText = false) :
    (handleSearch st (Except.ok [])).effects =
        [Effect.errorAlert "Not Found" "Location not found. Please try again."] ∧
      (handleSearch st (Except.error ())).effects =
        [Effect.errorAlert "Error" "Failed to search location. Please try again."] ∧
      (handleSearch st (Except.ok [])).effects ≠
        (handleSearch st (Except.error ())).effects ∧
      (handleSearch st (Except.ok [])).state = st ∧
      (handleSearch st (Except.error ())).state = st := by
  have hok : handleSearch st (Except.ok ([] : List Coordinate)) =
      ⟨st, [Effect.errorAlert "Not Found" "Location not found. Please try again."],
        true⟩ := by
    unfold handleSearch
    rw [h]
    rfl
  have herr : handleSearch st (Except.error ()) =
      ⟨st, [Effect.errorAlert "Error" "Failed to search location. Please try again."],
        true⟩ := by
    unfold handleSearch
    rw [h]
    rfl
  rw [hok, herr]
  exact ⟨rfl, rfl, by simp, rfl, rfl⟩

/-- C8 witness: at the query "Kochi", zero results and a transport failure are
reported by distinct dialogs and neither changes the state. -/
theorem not_found_distinct_from_transport_failure_witness :
    (blankQuery (⟨none, none, "Kochi", none, false, false⟩ : AppState).searchText =
        false) ∧
      ((handleSearch ⟨none, none, "Kochi", none, false, false⟩ (Except.ok [])).effects =
          [Effect.errorAlert "Not Found" "Location not found. Please try again."] ∧
        (handleSearch ⟨none, none, "Kochi", none, false, false⟩ (Except.error ())).effects =
          [Effect.errorAlert "Error" "Failed to search location. Please try again."] ∧
        (handleSearch ⟨none, none, "Kochi", none, false, false⟩ (Except.ok [])).effects ≠
          (handleSearch ⟨none, none, "Kochi", none, false, false⟩ (Except.error ())).effects ∧
        (handleSearch ⟨none, none, "Kochi", none, false, false⟩ (Except.ok [])).state =
          ⟨none, none, "Kochi", none, false, false⟩ ∧
        (handleSearch ⟨none, none, "Kochi", none, false, false⟩ (Except.error ())).state =
          ⟨none, none, "Kochi", none, false, false⟩) :=
  ⟨by decide, not_found_distinct_from_transport_failure _ (by decide)⟩

/-- C10: `clearDestination` resets destination, displayed distance, tracking
mode, alert flag and search text in one step, emits no side effect, and leaves
only the current location from the previous trip. -/
theorem clearDestination_resets_everything (st : AppState) :
    clearDestination st =
      (⟨st.location, none, "", none, false, false⟩, ([] : List Effect)) := rfl

/-- C6: in the legacy `Home.js`, with a tapped destination set and no searched
destination, the distance/alert effect nevertheless issues a second
`calculateDistance` call whose second coordinate is unset (`scoords` is
`null`), violating the both-coordinates-present precondition. -/
theorem home_calls_distance_with_unset_coordinate :
    homeDistanceCalls (some ⟨10.0558, 76.6183⟩) (some ⟨10.1, 76.7⟩) none =
      [(some ⟨10.0558, 76.6183⟩, some ⟨10.1, 76.7⟩),
        (some ⟨10.0558, 76.6183⟩, none)] ∧
      (some (⟨10.0558, 76.6183⟩ : Coordinate), (none : Option Coordinate)) ∈
        homeDistanceCalls (some ⟨10.0558, 76.6183⟩) (some ⟨10.1, 76.7⟩) none :=
  ⟨rfl, List.Mem.tail _ (List.Mem.head _)⟩
